import Mathlib

/-
  Verification of the DIRAC MySQL access layer (src/DIRAC/Core/Utilities/MySQL.py)
  against its natural-language specification.

  The development shallowly embeds the Python module:
  * Python values that flow into the SQL builders are the inductive `PyVal`
    (strings, ints, bools, lists, tuples), with Python truthiness made explicit.
  * fallible code (`S_OK`/`S_ERROR` results as well as exceptions that are
    caught at the public boundary) is `Except String`.
  * the two genuinely external ingredients, the MySQLdb driver function
    `connection.escape_string` and the datetime parser
    `DIRAC.Core.Utilities.Time.fromString` (whose source is not part of this
    repository), are fields of the environment `SqlEnv`; every theorem is
    stated for an arbitrary environment and witnesses instantiate a concrete
    one (`env0`).
  Each definition carries the line numbers of the Python code it embeds.
-/

set_option autoImplicit false

namespace DiracMySQL

/-- Python values reaching the escaping / condition-building code. -/
inductive PyVal where
  | str (s : String)
  | vint (n : Int)
  | vbool (b : Bool)
  | lst (l : List PyVal)
  | tup (l : List PyVal)
  deriving Repr

/-- Python truthiness (`if x:`) for the embedded values. -/
def PyVal.truthy : PyVal → Bool
  | .str s => !s.data.isEmpty
  | .vint n => n != 0
  | .vbool b => b
  | .lst l => !l.isEmpty
  | .tup l => !l.isEmpty

/-
  Python string primitives, re-implemented by structural recursion on the
  character list so that every concrete computation reduces inside the
  kernel (the corresponding Lean library functions are defined by
  well-founded recursion on byte positions and do not).
-/

/-- The whitespace characters stripped by Python `str.strip()`. -/
def isSpaceChar (c : Char) : Bool :=
  c == ' ' || c == Char.ofNat 9 || c == Char.ofNat 10 || c == Char.ofNat 13
    || c == Char.ofNat 11 || c == Char.ofNat 12

/-- Python `str.strip()`. -/
def pyStrip (s : String) : String :=
  ⟨(((s.data.dropWhile isSpaceChar).reverse).dropWhile isSpaceChar).reverse⟩

def listStartsWithBool {α : Type} [BEq α] : List α → List α → Bool
  | _, [] => true
  | [], _ :: _ => false
  | a :: as, b :: bs => a == b && listStartsWithBool as bs

/-- Python `str.startswith`. -/
def pyStartsWith (s pre : String) : Bool :=
  listStartsWithBool s.data pre.data

/-- Python `str.endswith`. -/
def pyEndsWith (s suf : String) : Bool :=
  listStartsWithBool s.data.reverse suf.data.reverse

/-- Python `s[:-n]`. -/
def pyDropRight (s : String) (n : Nat) : String :=
  ⟨s.data.take (s.data.length - n)⟩

/-- Replace every (non-overlapping, leftmost-first) occurrence of `pat`;
the fuel is the input length, which suffices for non-empty patterns. -/
def pyReplaceAux (pat rep : List Char) : Nat → List Char → List Char
  | _, [] => []
  | 0, l => l
  | fuel + 1, c :: rest =>
    if listStartsWithBool (c :: rest) pat then
      rep ++ pyReplaceAux pat rep fuel ((c :: rest).drop pat.length)
    else c :: pyReplaceAux pat rep fuel rest

/-- Python `str.replace` (for non-empty patterns, the only use here). -/
def pyReplace (s pat rep : String) : String :=
  ⟨pyReplaceAux pat.data rep.data s.data.length s.data⟩

/-- Python `str.split(sep)` for a one-character separator. -/
def pySplitCharAux (sep : Char) : List Char → List Char → List (List Char)
  | [], acc => [acc.reverse]
  | c :: rest, acc =>
    if c == sep then acc.reverse :: pySplitCharAux sep rest []
    else pySplitCharAux sep rest (c :: acc)

def pySplitChar (sep : Char) (s : String) : List String :=
  (pySplitCharAux sep s.data []).map (fun l => ⟨l⟩)

/-- Python `sep.join(list)`. -/
def pyJoin (sep : String) : List String → String
  | [] => ""
  | [a] => a
  | a :: b :: rest => a ++ sep ++ pyJoin sep (b :: rest)

/-- Python `str.upper()` (ASCII, all that the module compares). -/
def pyUpper (s : String) : String :=
  ⟨s.data.map Char.toUpper⟩

mutual

/-- Python `repr` for the embedded values (only used through `pyStr` on
nested containers, a path no caller of the module exercises). -/
def pyRepr : PyVal → String
  | .str s => String.singleton (Char.ofNat 39) ++ s ++ String.singleton (Char.ofNat 39)
  | .vint n => toString n
  | .vbool b => if b then "True" else "False"
  | .lst l => "[" ++ pyJoin ", " (pyReprList l) ++ "]"
  | .tup l => "(" ++ pyJoin ", " (pyReprList l) ++ ")"

def pyReprList : List PyVal → List String
  | [] => []
  | v :: rest => pyRepr v :: pyReprList rest

end

/-- Python `str` for the embedded values. -/
def pyStr : PyVal → String
  | .str s => s
  | .vint n => toString n
  | .vbool b => if b then "True" else "False"
  | .lst l => pyRepr (.lst l)
  | .tup l => pyRepr (.tup l)

/-- External dependencies of the module: the driver escaping function
(`MySQLdb` connection `escape_string`, MySQL.py line 492) and the datetime
parser `fromString` imported from `DIRAC.Core.Utilities.Time` (line 155),
whose source is outside this repository; it reports whether a string parses
as a datetime literal. -/
structure SqlEnv where
  escape_string : String → String
  isDateTime : String → Bool

/-- One-character MySQL escaping step used by the concrete witness
environment. -/
def mysqlEscapeChar (c : Char) : String :=
  if c = Char.ofNat 92 then "\\\\"
  else if c = Char.ofNat 39 then "\\" ++ String.singleton (Char.ofNat 39)
  else if c = Char.ofNat 34 then "\\\""
  else if c = Char.ofNat 10 then "\\n"
  else if c = Char.ofNat 13 then "\\r"
  else if c = Char.ofNat 0 then "\\0"
  else if c = Char.ofNat 26 then "\\Z"
  else String.singleton c

/-- A concrete driver-style string escaper, for witness environments. -/
def mysqlEscape (s : String) : String :=
  (s.data.map mysqlEscapeChar).foldl (fun a b => a ++ b) ""

/-- Concrete environment used by witnesses and counterexamples. -/
def env0 : SqlEnv :=
  { escape_string := mysqlEscape, isDateTime := fun _ => false }

/-- MySQL.py lines 192-210, `_quotedList`: quote a list of field names with
backticks (stripping embedded backticks) and join them with a comma; `None`
on an empty list. Inputs whose elements are not strings (for which the
Python helper also returns `None`) are not representable here. -/
def quotedField (s : String) : String :=
  "`" ++ (pyReplace s "`" "") ++ "`"

def quotedList (fieldList : List String) : Option String :=
  if fieldList.isEmpty then none
  else some (pyJoin ", " (fieldList.map quotedField))

/-- MySQL.py line 474: the unit keywords accepted by the time functions. -/
def timeUnits : List String :=
  ["MICROSECOND", "SECOND", "MINUTE", "HOUR", "DAY", "WEEK", "MONTH", "QUARTER", "YEAR"]

/-- Python `str.isalnum`. -/
def pyIsalnum (s : String) : Bool :=
  !s.data.isEmpty && s.data.all Char.isAlphanum

/-- MySQL.py lines 442-454, `__isDateTime`: `UTC_TIMESTAMP()` is accepted
outright, otherwise quotes are stripped and the string is handed to the
external datetime parser. -/
def isDateTimeArg (env : SqlEnv) (s : String) : Bool :=
  if s == "UTC_TIMESTAMP()" then true
  else env.isDateTime (pyReplace (pyReplace s "\"" "") (String.singleton (Char.ofNat 39)) "")

/-- MySQL.py lines 481-490: the `TIMESTAMPDIFF`/`TIMESTAMPADD` passthrough
check inside `__escapeString`. `none` means the string does not look like a
call of `fname` and the scan falls through; otherwise the result of the
branch is returned. A wrong argument count raises `ValueError` in Python,
which the enclosing handler converts to an error result (lines 495-497). -/
def tsFuncCheck (env : SqlEnv) (fname s : String) : Option (Except String String) :=
  let st := pyStrip s
  if pyStartsWith st (fname ++ "(") && pyEndsWith st ")" then
    let args := (pySplitChar (Char.ofNat 44) (pyStrip (pyReplace (pyDropRight st 1) (fname ++ "(") ""))).map pyStrip
    some (match args with
      | [a1, a2, a3] =>
        if timeUnits.contains a1
            && (isDateTimeArg env a2 || pyIsalnum a2)
            && (isDateTimeArg env a3 || pyIsalnum a3) then
          .ok s
        else .error "__escape_string: Could not escape string"
      | _ => .error "Could not escape string")
  else none

/-- MySQL.py lines 457-497, `__escapeString`: datetime-function passthrough,
otherwise driver escaping wrapped in double quotes. -/
def escapeString (env : SqlEnv) (s : String) : Except String String :=
  if pyStrip s == "UTC_TIMESTAMP()" then .ok s
  else
    match tsFuncCheck env "TIMESTAMPDIFF" s with
    | some r => r
    | none =>
      match tsFuncCheck env "TIMESTAMPADD" s with
      | some r => r
      | none => .ok ("\"" ++ env.escape_string s ++ "\"")

/-- MySQL.py lines 548-555: the branch of `_escapeValues` for a tuple or
list value, escaping each member (after Python `str`(x)) in order. -/
def escElems (env : SqlEnv) : List PyVal → Except String (List String)
  | [] => .ok []
  | v :: rest => do
    let e ← escapeString env (pyStr v)
    let r ← escElems env rest
    .ok (e :: r)

/-- MySQL.py lines 542-562, the loop body of `_escapeValues` with its
accumulator `inEscapeValues`. Note the faithful transcription of line 557:
a boolean value REPLACES the accumulator with the singleton
`[str(value)]` instead of appending to it. -/
def escapeValuesAux (env : SqlEnv) (acc : List String) : List PyVal → Except String (List String)
  | [] => .ok acc
  | v :: rest =>
    match v with
    | .str s => do
      let e ← escapeString env s
      escapeValuesAux env (acc ++ [e]) rest
    | .lst l => do
      let tv ← escElems env l
      escapeValuesAux env (acc ++ ["(" ++ pyJoin ", " tv ++ ")"]) rest
    | .tup l => do
      let tv ← escElems env l
      escapeValuesAux env (acc ++ ["(" ++ pyJoin ", " tv ++ ")"]) rest
    | .vbool b => escapeValuesAux env [pyStr (.vbool b)] rest
    | .vint n => do
      let e ← escapeString env (pyStr (.vint n))
      escapeValuesAux env (acc ++ [e]) rest

/-- MySQL.py lines 531-563, `_escapeValues`. An empty (or absent) input list
returns an empty result immediately (line 539). -/
def escapeValues (env : SqlEnv) (inValues : List PyVal) : Except String (List String) :=
  if inValues.isEmpty then .ok []
  else escapeValuesAux env [] inValues

/-- The per-value escaping the specification describes, used to express what
a single escaped output should be. -/
def escapeOne (env : SqlEnv) (v : PyVal) : Except String String :=
  match v with
  | .str s => escapeString env s
  | .lst l => do
    let tv ← escElems env l
    .ok ("(" ++ pyJoin ", " tv ++ ")")
  | .tup l => do
    let tv ← escElems env l
    .ok ("(" ++ pyJoin ", " tv ++ ")")
  | .vbool b => .ok (pyStr (.vbool b))
  | .vint n => escapeString env (pyStr (.vint n))

/-- Discriminates error results. -/
def isErr {α : Type} : Except String α → Bool
  | .error _ => true
  | .ok _ => false

/-- A key of the condition dictionary: a plain field name or a tuple of
field names for composite equality (MySQL.py lines 1142-1145). -/
inductive CondKey where
  | name (s : String)
  | names (l : List String)
  deriving Repr

/-- MySQL.py lines 1142-1149: computation of `attrName` for one condition
entry. A tuple key with an empty field list makes `_quotedList` return
`None` and the Python concatenation raise `TypeError`; the surrounding
public operations catch that exception, so it is modelled as an error. -/
def condKeyName : CondKey → Except String String
  | .name s => .ok (quotedField s)
  | .names l =>
    match quotedList l with
    | none => .error "TypeError: cannot concatenate str and NoneType objects"
    | some q => .ok ("(" ++ q ++ ")")

/-- The text of one WHERE-family clause coming from a condition-dictionary
entry (MySQL.py lines 1150-1174): list values render as `IN ( ... )`,
anything else as an equality against the first escaped value. -/
def eqClauseBody (env : SqlEnv) (k : CondKey) (v : PyVal) : Except String String := do
  let attrName ← condKeyName k
  match v with
  | .lst l => do
    let ev ← escapeValues env l
    .ok (attrName ++ " IN ( " ++ pyJoin ", " ev ++ " )")
  | _ => do
    let ev ← escapeValues env [v]
    .ok (attrName ++ " = " ++ ev.headD "")

/-- MySQL.py lines 1140-1174: the loop over the condition dictionary,
threading the accumulated fragment and the pending conjunction
(`WHERE` for the first clause, `AND` afterwards). -/
def condLoop (env : SqlEnv) : List (CondKey × PyVal) → String → String →
    Except String (String × String)
  | [], condition, conjunction => .ok (condition, conjunction)
  | (k, v) :: rest, condition, conjunction => do
    let body ← eqClauseBody env k v
    condLoop env rest (" " ++ condition ++ " " ++ conjunction ++ " " ++ body) "AND"

/-- MySQL.py lines 1206-1224 and 1226-1244: the loops over the `greater`
(`>=`) and `smaller` (`<`) dictionaries. -/
def boundLoop (env : SqlEnv) (op : String) : List (String × PyVal) → String → String →
    Except String (String × String)
  | [], condition, conjunction => .ok (condition, conjunction)
  | (aName, v) :: rest, condition, conjunction => do
    let ev ← escapeValues env [v]
    boundLoop env op rest
      (" " ++ condition ++ " " ++ conjunction ++ " " ++ quotedField aName ++ " " ++ op ++ " " ++ ev.headD "")
      "AND"

/-- MySQL.py lines 1176-1204: the timestamp section. The `newer` bound sets
the conjunction to `AND` (line 1193); the `older` bound does NOT (there is
no assignment after line 1204), which this transcription preserves. -/
def tsSection (env : SqlEnv) (timeStamp : Option String) (newer older : Option PyVal) :
    String → String → Except String (String × String) :=
  fun condition conjunction =>
    match timeStamp with
    | none => .ok (condition, conjunction)
    | some ts =>
      if ts.isEmpty then .ok (condition, conjunction)
      else do
        let tsQ := quotedField ts
        let (condition, conjunction) ←
          match newer with
          | some nv =>
            if nv.truthy then do
              let ev ← escapeValues env [nv]
              pure (" " ++ condition ++ " " ++ conjunction ++ " " ++ tsQ ++ " >= " ++ ev.headD "", "AND")
            else pure (condition, conjunction)
          | none => pure (condition, conjunction)
        match older with
        | some ov =>
          if ov.truthy then do
            let ev ← escapeValues env [ov]
            pure (" " ++ condition ++ " " ++ conjunction ++ " " ++ tsQ ++ " < " ++ ev.headD "", conjunction)
          else pure (condition, conjunction)
        | none => pure (condition, conjunction)

/-- One entry of the `orderAttribute` argument: Python `None`, a string, or
a value of any other type (which the builder rejects). -/
inductive OrderEntry where
  | noneE
  | strE (s : String)
  | otherE
  deriving Repr

/-- The `orderAttribute` argument itself: a single entry or a list of
entries (MySQL.py lines 1248-1250 wrap a non-list into a one-element
list). -/
inductive OrderArg where
  | one (e : OrderEntry)
  | many (l : List OrderEntry)
  deriving Repr

def orderEntries : OrderArg → List OrderEntry
  | .one e => [e]
  | .many l => l

/-- MySQL.py lines 1247-1274: building `orderList`. A `field:dir` entry is
quoted and its direction upper-cased and checked against ASC/DESC; an entry
without a direction is appended verbatim. -/
def orderLoop : List OrderEntry → Except String (List String)
  | [] => .ok []
  | .noneE :: rest => orderLoop rest
  | .otherE :: _ => .error "Invalid orderAttribute argument"
  | .strE s :: rest => do
    let parts := pySplitChar (Char.ofNat 58) s
    let orderField ←
      match quotedList (parts.take 1) with
      | none => .error "Invalid orderAttribute argument"
      | some f => pure f
    if parts.length == 2 then
      let orderType := pyUpper (parts.getD 1 "")
      if orderType == "ASC" || orderType == "DESC" then do
        let r ← orderLoop rest
        .ok ((orderField ++ " " ++ orderType) :: r)
      else .error "Invalid orderAttribute argument"
    else do
      let r ← orderLoop rest
      .ok (s :: r)

/-- MySQL.py lines 1276-1283: append `ORDER BY`, then `LIMIT` (with
`OFFSET` only when both `limit` and `offset` are truthy; Python `if limit:`
treats `0` and `False` alike). -/
def truthyInt : Option Int → Bool
  | none => false
  | some n => n != 0

def applyOrderLimit (condition : String) (orderList : List String)
    (limit offset : Option Int) : String :=
  let condition :=
    if orderList.isEmpty then condition
    else condition ++ " ORDER BY " ++ pyJoin ", " orderList
  if truthyInt limit then
    if truthyInt offset then
      condition ++ " LIMIT " ++ toString ((limit.getD 0)) ++ " OFFSET " ++ toString ((offset.getD 0))
    else condition ++ " LIMIT " ++ toString ((limit.getD 0))
  else condition

/-- MySQL.py lines 1125-1285, `buildCondition`: direct transcription of the
builder, threading the `(condition, conjunction)` pair through the four
clause families, then `ORDER BY`, then `LIMIT`/`OFFSET`. An absent
(`None`) condition dictionary skips the loop exactly as an empty one does
(line 1140), and an absent or non-dict `greater`/`smaller` skips its loop
(lines 1206, 1226), so absent maps are embedded as empty ones. -/
def buildCondition (env : SqlEnv) (condDict : Option (List (CondKey × PyVal)))
    (older newer : Option PyVal) (timeStamp : Option String)
    (orderAttribute : OrderArg) (limit : Option Int)
    (greater smaller : Option (List (String × PyVal))) (offset : Option Int) :
    Except String String := do
  let st1 ← condLoop env (condDict.getD []) "" "WHERE"
  let st2 ← tsSection env timeStamp newer older st1.1 st1.2
  let st3 ← boundLoop env ">=" (greater.getD []) st2.1 st2.2
  let st4 ← boundLoop env "<" (smaller.getD []) st3.1 st3.2
  let orderList ← orderLoop (orderEntries orderAttribute)
  .ok (applyOrderLimit st4.1 orderList limit offset)

/-
  Specification-shaped assembly of the condition fragment, following the
  words of the claim: a list of WHERE-family clauses is produced family by
  family in the stated order and then joined, the first clause introduced
  by WHERE and later ones by AND.  Each clause carries a flag saying
  whether, after it, the pending conjunction becomes AND; the claim as
  written corresponds to every flag being true, the code to the older-bound
  clause not advancing the conjunction.
-/

/-- Join a list of (clause body, advances-conjunction flag) pairs onto an
accumulated fragment, with the same spacing the code produces. -/
def joinPair : List (String × Bool) → String × String → String × String
  | [], s => s
  | (body, flip) :: rest, (condition, conjunction) =>
    joinPair rest
      (" " ++ condition ++ " " ++ conjunction ++ " " ++ body,
       if flip then "AND" else conjunction)

/-- The equality-map clauses, in iteration order; each advances the
conjunction. -/
def eqClauses (env : SqlEnv) : List (CondKey × PyVal) → Except String (List (String × Bool))
  | [] => .ok []
  | (k, v) :: rest => do
    let b ← eqClauseBody env k v
    let r ← eqClauses env rest
    .ok ((b, true) :: r)

/-- The timestamp clauses: the `newer` bound with `>=` then the `older`
bound with `<`. `olderFlips` states whether the older clause advances the
conjunction; the claim asserts it does, the code does not. -/
def tsClauses (env : SqlEnv) (timeStamp : Option String) (newer older : Option PyVal)
    (olderFlips : Bool) : Except String (List (String × Bool)) :=
  match timeStamp with
  | none => .ok []
  | some ts =>
    if ts.isEmpty then .ok []
    else do
      let tsQ := quotedField ts
      let n ←
        match newer with
        | some nv =>
          if nv.truthy then do
            let ev ← escapeValues env [nv]
            pure [(tsQ ++ " >= " ++ ev.headD "", true)]
          else pure []
        | none => pure []
      let o ←
        match older with
        | some ov =>
          if ov.truthy then do
            let ev ← escapeValues env [ov]
            pure [(tsQ ++ " < " ++ ev.headD "", olderFlips)]
          else pure []
        | none => pure []
      .ok (n ++ o)

/-- The `greater` (`>=`) or `smaller` (`<`) clauses, in iteration order;
each advances the conjunction. -/
def boundClauses (env : SqlEnv) (op : String) : List (String × PyVal) →
    Except String (List (String × Bool))
  | [] => .ok []
  | (aName, v) :: rest => do
    let ev ← escapeValues env [v]
    let r ← boundClauses env op rest
    .ok ((quotedField aName ++ " " ++ op ++ " " ++ ev.headD "", true) :: r)

/-- The fragment assembled as the claim describes it: equality clauses,
then timestamp bounds, then greater, then smaller, joined starting at
`WHERE`; then `ORDER BY`; then `LIMIT`/`OFFSET`. `olderFlips := true`
renders the claim exactly as stated; `olderFlips := false` is the amended
statement. -/
def buildConditionSpec (env : SqlEnv) (condDict : Option (List (CondKey × PyVal)))
    (older newer : Option PyVal) (timeStamp : Option String)
    (orderAttribute : OrderArg) (limit : Option Int)
    (greater smaller : Option (List (String × PyVal))) (offset : Option Int)
    (olderFlips : Bool) : Except String String := do
  let eq ← eqClauses env (condDict.getD [])
  let ts ← tsClauses env timeStamp newer older olderFlips
  let gt ← boundClauses env ">=" (greater.getD [])
  let sm ← boundClauses env "<" (smaller.getD [])
  let orderList ← orderLoop (orderEntries orderAttribute)
  .ok (applyOrderLimit (joinPair (eq ++ ts ++ gt ++ sm) ("", "WHERE")).1
        orderList limit offset)

/-
  The high-level query helpers.  Each helper validates its arguments,
  builds a condition fragment, and passes exactly one SQL statement to
  `_query` or `_update`.  The helpers are modelled as functions returning
  that statement text, so `Except.error` means the helper returned a
  structured failure before any SQL was issued.
-/

/-- MySQL.py lines 177-190, `_checkFields`: both arguments `None` is fine;
otherwise unequal lengths (or exactly one `None`, for which `len(None)`
raises and is caught) is a mismatch error. -/
def checkFields (inFields : Option (List String)) (inValues : Option (List PyVal)) :
    Except String Unit :=
  match inFields, inValues with
  | none, none => .ok ()
  | some f, some v =>
    if f.length == v.length then .ok ()
    else .error "Mismatch between inFields and inValues."
  | _, _ => .error "Mismatch between inFields and inValues."

/-- The `limit` argument of `getFields`: Python `False`, an integer, or an
indexable pair (MySQL.py lines 1322-1328 try `limit[0]`/`limit[1]` and fall
back to the value itself). -/
inductive LimitArg where
  | noLim
  | lim (n : Int)
  | limPair (a b : Int)
  deriving Repr

def limFst : LimitArg → Option Int
  | .noLim => none
  | .lim n => some n
  | .limPair a _ => some a

def limSnd : LimitArg → Option Int
  | .limPair _ b => some b
  | _ => none

/-- MySQL.py lines 1288-1336, `getFields`: `SELECT outFields|* FROM table
condition`; the condition is built with `greater = None, smaller = None`
(lines 1329-1331). -/
def getFieldsOp (env : SqlEnv) (tableName : String) (outFields : Option (List String))
    (condDict : Option (List (CondKey × PyVal))) (limit : LimitArg)
    (older newer : Option PyVal) (timeStamp : Option String) (orderAttribute : OrderArg)
    (greater smaller : Option (List (String × PyVal))) : Except String String := do
  let table ←
    match quotedList [tableName] with
    | none => .error "Invalid tableName argument"
    | some t => pure t
  let quotedOutFields ←
    match outFields with
    | none => pure "*"
    | some l =>
      if l.isEmpty then pure "*"
      else
        match quotedList l with
        | none => .error "Invalid outFields arguments"
        | some q => pure q
  let condition ← buildCondition env (some (condDict.getD [])) older newer timeStamp
      orderAttribute (limFst limit) none none (limSnd limit)
  .ok ("SELECT " ++ quotedOutFields ++ " FROM " ++ table ++ " " ++ condition)

/-- MySQL.py lines 1339-1366, `deleteEntries`: `DELETE FROM table
condition`; the condition is built with `greater = None, smaller = None`
(lines 1360-1362). -/
def deleteEntriesOp (env : SqlEnv) (tableName : String)
    (condDict : Option (List (CondKey × PyVal))) (limit : Option Int)
    (older newer : Option PyVal) (timeStamp : Option String) (orderAttribute : OrderArg)
    (greater smaller : Option (List (String × PyVal))) : Except String String := do
  let table ←
    match quotedList [tableName] with
    | none => .error "Invalid tableName argument"
    | some t => pure t
  let condition ← buildCondition env condDict older newer timeStamp
      orderAttribute limit none none none
  .ok ("DELETE FROM " ++ table ++ " " ++ condition)

/-- Result of `updateFields`: either the early `S_OK(0)` with no SQL issued
(MySQL.py lines 1385-1386), or the single UPDATE statement. -/
inductive UpdRes where
  | noop
  | stmt (cmd : String)
  deriving Repr

/-- MySQL.py lines 1369-1437, `updateFields`. The condition is built with
`greater = None, smaller = None` (lines 1427-1429). `updateDict = some []`
models an empty dictionary (falsy, like `None`, for the early return). -/
def updateFieldsOp (env : SqlEnv) (tableName : String)
    (updFields : Option (List String)) (updValues : Option (List PyVal))
    (condDict : Option (List (CondKey × PyVal))) (limit : Option Int)
    (updateDict : Option (List (String × PyVal)))
    (older newer : Option PyVal) (timeStamp : Option String) (orderAttribute : OrderArg)
    (greater smaller : Option (List (String × PyVal))) : Except String UpdRes := do
  if ((updFields.getD []).isEmpty) && ((updateDict.getD []).isEmpty) then
    .ok .noop
  else do
    let table ←
      match quotedList [tableName] with
      | none => .error "Invalid tableName argument"
      | some t => pure t
    match checkFields updFields updValues with
    | .error _ => .error "Mismatch between updateFields and updateValues."
    | .ok _ => do
      let fields0 := updFields.getD []
      let values0 := if updFields.isNone then [] else updValues.getD []
      let fields := fields0 ++ (updateDict.getD []).map Prod.fst
      let values := values0 ++ (updateDict.getD []).map Prod.snd
      let escaped ← escapeValues env values
      let condition ← buildCondition env condDict older newer timeStamp
          orderAttribute limit none none none
      if escaped.length < fields.length then
        -- line 1433 indexes the escaped value list by field position with no
        -- handler around it; when escaping returned fewer values than there
        -- are fields the Python code raises IndexError out of updateFields.
        .error "IndexError: list index out of range"
      else
        let updateString := pyJoin ","
          ((List.zip fields escaped).map (fun p => quotedField p.1 ++ " = " ++ p.2))
        .ok (.stmt ("UPDATE " ++ table ++ " SET " ++ updateString ++ " " ++ condition))

/-- MySQL.py lines 1440-1494, `insertFields`: `INSERT INTO table ( fields )
VALUES ( escaped values )`. -/
def insertFieldsOp (env : SqlEnv) (tableName : String)
    (inFields : Option (List String)) (inValues : Option (List PyVal))
    (inDict : Option (List (String × PyVal))) : Except String String := do
  let table ←
    match quotedList [tableName] with
    | none => .error "Invalid tableName argument"
    | some t => pure t
  match checkFields inFields inValues with
  | .error e => .error e
  | .ok _ => do
    let fields0 := inFields.getD []
    let values0 := if inFields.isNone then [] else inValues.getD []
    let fields := fields0 ++ (inDict.getD []).map Prod.fst
    let values := values0 ++ (inDict.getD []).map Prod.snd
    let inFieldString ←
      match quotedList fields with
      | none => .error "Invalid inFields arguments"
      | some q => pure ("(  " ++ q ++ " )")
    let escaped ← escapeValues env values
    let inValueString := "(  " ++ pyJoin ", " escaped ++ " )"
    .ok ("INSERT INTO " ++ table ++ " " ++ inFieldString ++ " VALUES " ++ inValueString)

/-- MySQL.py lines 1029-1051, `countEntries`: `SELECT COUNT(*) FROM table
condition`; the condition is built with `greater = None, smaller = None`
(lines 1041-1042) and with no ordering, limit or offset. -/
def countEntriesOp (env : SqlEnv) (tableName : String)
    (condDict : Option (List (CondKey × PyVal)))
    (older newer : Option PyVal) (timeStamp : Option String)
    (greater smaller : Option (List (String × PyVal))) : Except String String := do
  let table ←
    match quotedList [tableName] with
    | none => .error "Invalid table argument"
    | some t => pure t
  let condition ← buildCondition env condDict older newer timeStamp
      (.one .noneE) none none none none
  .ok ("SELECT COUNT(*) FROM " ++ table ++ " " ++ condition)

/-- MySQL.py lines 1054-1090, `getCounters`: grouped count, grouped and
ordered by the same quoted field list; the condition is built with
`greater = None, smaller = None` (lines 1073-1074). -/
def getCountersOp (env : SqlEnv) (tableName : String) (attrList : List String)
    (condDict : Option (List (CondKey × PyVal)))
    (older newer : Option PyVal) (timeStamp : Option String)
    (greater smaller : Option (List (String × PyVal))) : Except String String := do
  let table ←
    match quotedList [tableName] with
    | none => .error "Invalid table argument"
    | some t => pure t
  let attrNames ←
    match quotedList attrList with
    | none => .error "Invalid updateFields argument"
    | some a => pure a
  let condition ← buildCondition env condDict older newer timeStamp
      (.one .noneE) none none none none
  .ok ("SELECT " ++ attrNames ++ ", COUNT(*) FROM " ++ table ++ " " ++ condition
       ++ " GROUP BY " ++ attrNames ++ " ORDER BY " ++ attrNames)

/-- MySQL.py lines 1093-1122, `getDistinctAttributeValues`: distinct values
of one attribute, ordered by it; the condition is built with
`greater = None, smaller = None` (lines 1112-1113). -/
def getDistinctAttributeValuesOp (env : SqlEnv) (tableName : String) (attrArg : String)
    (condDict : Option (List (CondKey × PyVal)))
    (older newer : Option PyVal) (timeStamp : Option String)
    (greater smaller : Option (List (String × PyVal))) : Except String String := do
  let table ←
    match quotedList [tableName] with
    | none => .error "Invalid table argument"
    | some t => pure t
  let attributeName ←
    match quotedList [attrArg] with
    | none => .error "Invalid attribute argument"
    | some a => pure a
  let condition ← buildCondition env condDict older newer timeStamp
      (.one .noneE) none none none none
  .ok ("SELECT  DISTINCT( " ++ attributeName ++ " ) FROM " ++ table ++ " " ++ condition
       ++ " ORDER BY " ++ attributeName)

/-
  ConnectionPool retry logic (MySQL.py lines 255-294).  The interaction
  with the database server is abstracted as an oracle giving, for each
  attempt number, which of the attempt outcomes the external world
  produces.  The recursion of `__getWithRetry` is transcribed directly;
  because the ping-failure branch does not decrement `retriesLeft`, the
  recursion is not structurally bounded by the retry budget and the
  embedding makes the recursion depth an explicit `fuel` argument:
  `outOfFuel` means the code is still recursing after `fuel` attempts.
-/

/-- What the external world does on one acquisition attempt:
`connectFail`  - `__innerGet` raises `MySQLError` (line 267);
`pingFail`     - a connection is assigned but `__ping` returns false (line 272);
`selectDbFail` - the schema differs and `conn.select_db` raises (line 284);
`assignLost`   - the assignment vanished before the schema update (line 290);
`success`      - the connection is live and on the right schema. -/
inductive AttemptOutcome where
  | connectFail
  | pingFail
  | selectDbFail
  | assignLost
  | success
  deriving Repr

/-- Result of `get`/`__getWithRetry`. -/
inductive GetResult where
  | gotConn
  | connError (msg : String)
  | outOfFuel
  deriving Repr

/-- MySQL.py lines 261-294, `__getWithRetry`, instrumented with the trace
of attempts: the returned list records, for each invocation, the value of
`retriesLeft` and the seconds slept before that attempt (lines 262-264:
`sleepTime = 5 * (totalRetries - retriesLeft)`, slept only when positive).
The transcription preserves line 278: the ping-failure branch retries with
`retriesLeft` UNCHANGED, while every other failure branch retries with
`retriesLeft - 1`. -/
def sleepAmount (total retriesLeft : Int) : Int :=
  let sleepTime := 5 * (total - retriesLeft)
  if sleepTime > 0 then sleepTime else 0

def getWithRetry (oracle : Nat → AttemptOutcome) (dbName : String) (total : Int) :
    Nat → Nat → Int → GetResult × List (Int × Int)
  | 0, _, _ => (.outOfFuel, [])
  | fuel + 1, k, retriesLeft =>
    let entry := (retriesLeft, sleepAmount total retriesLeft)
    match oracle k with
    | .connectFail =>
      if 0 ≤ retriesLeft then
        let r := getWithRetry oracle dbName total fuel (k + 1) (retriesLeft - 1)
        (r.1, entry :: r.2)
      else (.connError "Could not connect: MySQLError", [entry])
    | .pingFail =>
      if 0 ≤ retriesLeft then
        let r := getWithRetry oracle dbName total fuel (k + 1) retriesLeft
        (r.1, entry :: r.2)
      else (.connError "Could not connect", [entry])
    | .selectDbFail =>
      if 0 ≤ retriesLeft then
        let r := getWithRetry oracle dbName total fuel (k + 1) (retriesLeft - 1)
        (r.1, entry :: r.2)
      else (.connError ("Could not select db " ++ dbName ++ ": MySQLError"), [entry])
    | .assignLost =>
      if 0 ≤ retriesLeft then
        let r := getWithRetry oracle dbName total fuel (k + 1) (retriesLeft - 1)
        (r.1, entry :: r.2)
      else (.connError "Could not connect", [entry])
    | .success => (.gotConn, [entry])

/-- MySQL.py lines 255-258, `get`: the retry budget is clamped into
`[0, MAXCONNECTRETRY]` and `__getWithRetry` starts with
`retriesLeft = totalRetries = retries`. -/
def MAXCONNECTRETRY : Int := 10

def poolGet (oracle : Nat → AttemptOutcome) (dbName : String) (retries : Int)
    (fuel : Nat) : GetResult × List (Int × Int) :=
  let r := max 0 (min MAXCONNECTRETRY retries)
  getWithRetry oracle dbName r fuel 0 r

/-
  ConnectionPool state (MySQL.py lines 224-344): assignment map, spare
  queue, closing of surplus connections.  Connections are identified by
  naturals, consumer (thread) identities too.  `closed` records the
  connections that were closed instead of queued, so the release rule can
  be stated.
-/

/-- One assignment entry: `[conn, dbName, lastUseTime]` (line 319). -/
structure ConnData where
  conn : Nat
  db : String
  lastUse : Int
  deriving Repr

/-- The pool state: `__spares` is a deque appended on the right and popped
on the right, `__maxSpares` is fixed to 10 at construction (line 231),
`__assigned` maps thread ids to assignment entries. -/
structure PoolState where
  spares : List (Nat × String)
  maxSpares : Nat
  graceTime : Int
  assigned : List (Nat × ConnData)
  closed : List Nat
  nextConn : Nat
  deriving Repr

/-- MySQL.py lines 224-233, `ConnectionPool.__init__`. -/
def initPool (graceTime : Int) : PoolState :=
  { spares := [], maxSpares := 10, graceTime := graceTime,
    assigned := [], closed := [], nextConn := 0 }

def lookupAssigned (p : PoolState) (thid : Nat) : Option ConnData :=
  (p.assigned.find? (fun e => e.1 == thid)).map Prod.snd

def removeAssigned (p : PoolState) (thid : Nat) : PoolState :=
  { p with assigned := p.assigned.filter (fun e => e.1 != thid) }

/-- MySQL.py lines 322-330, `__pop`: drop the assignment of `thid`; the
released connection is appended to the spare queue when the queue is
strictly below `__maxSpares`, otherwise it is closed. -/
def popConn (p : PoolState) (thid : Nat) : PoolState :=
  match lookupAssigned p thid with
  | none => p
  | some d =>
    let p := removeAssigned p thid
    if p.spares.length < p.maxSpares then
      { p with spares := p.spares ++ [(d.conn, d.db)] }
    else
      { p with closed := p.closed ++ [d.conn] }

/-- MySQL.py lines 272-276: on a ping failure the assignment is removed
directly from `__assigned` (the connection is neither queued nor closed). -/
def dropAssigned (p : PoolState) (thid : Nat) : PoolState :=
  removeAssigned p thid

/-- MySQL.py lines 304-320, `__innerGet`: reuse the caller's assigned
connection (refreshing its timestamp), else pop the most recently released
spare, else open a new connection; the new assignment starts with the
schema recorded for the spare (or empty for a fresh connection). -/
def innerGet (p : PoolState) (thid : Nat) (now : Int) : PoolState × Nat × String :=
  match lookupAssigned p thid with
  | some d =>
    let touched := p.assigned.map
      (fun e => if e.1 == thid then (e.1, { e.2 with lastUse := now }) else e)
    ({ p with assigned := touched }, d.conn, d.db)
  | none =>
    match p.spares.getLast? with
    | some (conn, db) =>
      ({ p with spares := p.spares.dropLast,
                assigned := p.assigned ++ [(thid, ⟨conn, db, now⟩)] },
       conn, db)
    | none =>
      ({ p with nextConn := p.nextConn + 1,
                assigned := p.assigned ++ [(thid, ⟨p.nextConn, "", now⟩)] },
       p.nextConn, "")

/-- MySQL.py lines 336-344, the body of `clean` for one thread id: pop the
assignment when the thread is dead, then pop it when idle longer than the
grace period. -/
def cleanStep (alive : Nat → Bool) (now : Int) (p : PoolState) (thid : Nat) : PoolState :=
  let p := if alive thid then p else popConn p thid
  match lookupAssigned p thid with
  | none => p
  | some d => if now - d.lastUse > p.graceTime then popConn p thid else p

/-- MySQL.py lines 332-344, `clean`: sweep over a snapshot of the assigned
thread ids. -/
def cleanPool (alive : Nat → Bool) (now : Int) (p : PoolState) : PoolState :=
  (p.assigned.map Prod.fst).foldl (cleanStep alive now) p

/-- The spare-queue bound invariant of the pool. -/
def spareInv (p : PoolState) : Prop :=
  p.spares.length ≤ p.maxSpares

/-
  Schema creation (MySQL.py lines 499-519 and 780-935).  A table dictionary
  is an association list (order-preserving, as dictionary iteration order
  drives the extraction); the live schema is the list of existing table
  names, and executing DDL is modelled by threading that list: `DROP`
  removes a name, `CREATE` appends it.  Each operation returns the list of
  SQL statements issued together with the final schema.
-/

/-- Declarative table description (MySQL.py lines 782-810). `Fields` is an
`Option` because its presence is checked (line 831); the other dictionary
keys behave identically when absent or empty. -/
structure TableSpec where
  Fields : Option (List (String × String)) := none
  ForeignKeys : List (String × String) := []
  PrimaryKey : Option (String ⊕ List String) := none
  Indexes : List (String × List String) := []
  UniqueIndexes : List (String × List String) := []
  Engine : Option String := none
  Charset : Option String := none
  deriving Repr

/-- MySQL.py lines 853-856 and 909-912: split a foreign-key target
`"Table.key"` into the referenced table and field; without a dot the
referenced field keeps the source key name. -/
def fkTarget (key auxTable : String) : String × String :=
  let parts := pySplitChar (Char.ofNat 46) auxTable
  let forTable := parts.headD ""
  let forKey := if forTable == auxTable then key else parts.getD 1 ""
  (forTable, forKey)

/-- Outcome of scanning one table's foreign keys during a round. -/
inductive FKScan where
  | extract
  | defer
  | fkError (msg : String)
  deriving Repr

/-- MySQL.py lines 850-865: walk the foreign keys of `tbl` in order; stop
with `defer` at the first key whose target table is not yet extracted
(line 857's `break`), and fail when a validated key's fields are missing
from the source or target field maps (lines 860-865). -/
def fkScan (tableDict : List (String × TableSpec)) (aux : List String) (tbl : String)
    (fields : List (String × String)) : List (String × String) → FKScan
  | [] => .extract
  | (key, auxTable) :: rest =>
    if !(aux.contains (fkTarget key auxTable).1) then .defer
    else if !(fields.any (fun f => f.1 == key)) then
      .fkError ("ForeignKey `" ++ key ++ "` -> `" ++ (fkTarget key auxTable).2
        ++ "` not defined in Primary table `" ++ tbl ++ "`.")
    else if !((((tableDict.lookup (fkTarget key auxTable).1).getD {}).Fields.getD []).any
        (fun f => f.1 == (fkTarget key auxTable).2)) then
      .fkError ("ForeignKey `" ++ key ++ "` -> `" ++ (fkTarget key auxTable).2
        ++ "` not defined in Auxiliary table `" ++ (fkTarget key auxTable).1 ++ "`.")
    else fkScan tableDict aux tbl fields rest

/-- One pass of the extraction loop body (MySQL.py lines 847-871) over the
remaining table names: the tables extracted this round, in iteration
order, and those still remaining. -/
def roundExtract (tableDict : List (String × TableSpec)) (aux : List String) :
    List String → Except String (List String × List String)
  | [] => .ok ([], [])
  | t :: rest =>
    match fkScan tableDict aux t ((((tableDict.lookup t).getD {}).Fields).getD [])
        (((tableDict.lookup t).getD {}).ForeignKeys) with
    | .fkError m => .error m
    | .defer => do
      let (e, r) ← roundExtract tableDict aux rest
      .ok (e, t :: r)
    | .extract => do
      let (e, r) ← roundExtract tableDict aux rest
      .ok (t :: e, r)

/-- MySQL.py lines 834-874: the `while tableList and extracted` loop. Each
successful round removes at least one table, so `tableDict.length + 1`
units of fuel always suffice; a round that extracts nothing while tables
remain is the dependency-cycle error of line 874, naming the remaining
tables. -/
def resolveRoundsAux (tableDict : List (String × TableSpec)) :
    Nat → List String → List String → Except String (List (List String))
  | _, [], _ => .ok []
  | 0, remaining, _ =>
    .error ("Recursive Foreign Keys in " ++ pyJoin ", " remaining)
  | fuel + 1, tableList, aux => do
    let (ext, rem) ← roundExtract tableDict aux tableList
    if ext.isEmpty then
      .error ("Recursive Foreign Keys in " ++ pyJoin ", " rem)
    else do
      let rest ← resolveRoundsAux tableDict fuel rem (aux ++ ext)
      .ok (ext :: rest)

/-- The creation batches of `_createTables`, starting from the full key
list with nothing extracted. -/
def resolveRounds (tableDict : List (String × TableSpec)) :
    Except String (List (List String)) :=
  resolveRoundsAux tableDict (tableDict.length + 1) (tableDict.map Prod.fst) []

/-- MySQL.py lines 499-519, `__checkTable`: query the live schema with
`SHOW TABLES`; an existing table is an error unless `force`, in which case
it is dropped. Returns the statements issued and the resulting schema. -/
def checkTable (schema : List String) (tableName : String) (force : Bool) :
    Except String (List String × List String) :=
  match quotedList [tableName] with
  | none => .error "Invalid tableName argument"
  | some tq =>
    if schema.contains tableName then
      if !force then .error "The requested table already exist"
      else .ok (["SHOW TABLES", "DROP TABLE " ++ tq], schema.erase tableName)
    else .ok (["SHOW TABLES"], schema)

/-- MySQL.py lines 883-929: the `CREATE TABLE` statement for one table:
column clauses, primary key (single or composite), indexes, unique
indexes, foreign keys with `ON DELETE RESTRICT`, and the engine/charset
trailer with defaults `InnoDB` and `latin1`. -/
def createTableCmd (tbl : String) (spec : TableSpec) : String :=
  let fieldCmds := (spec.Fields.getD []).map (fun f => "`" ++ f.1 ++ "` " ++ f.2)
  let pkCmds :=
    match spec.PrimaryKey with
    | none => []
    | some (.inl k) => ["PRIMARY KEY ( `" ++ k ++ "` )"]
    | some (.inr ks) =>
      ["PRIMARY KEY ( " ++ pyJoin ", " (ks.map (fun f => "`" ++ f ++ "`")) ++ " )"]
  let idxCmds := spec.Indexes.map
    (fun i => "INDEX `" ++ i.1 ++ "` ( `" ++ pyJoin "`, `" i.2 ++ "` )")
  let uidxCmds := spec.UniqueIndexes.map
    (fun i => "UNIQUE INDEX `" ++ i.1 ++ "` ( `" ++ pyJoin "`, `" i.2 ++ "` )")
  let fkCmds := spec.ForeignKeys.map (fun kv =>
    let ft := fkTarget kv.1 kv.2
    "FOREIGN KEY ( `" ++ kv.1 ++ "` ) REFERENCES `" ++ ft.1 ++ "` ( `" ++ ft.2
      ++ "` ) ON DELETE RESTRICT")
  let cmdList := fieldCmds ++ pkCmds ++ idxCmds ++ uidxCmds ++ fkCmds
  "CREATE TABLE `" ++ tbl ++ "` (\n" ++ pyJoin ",\n" cmdList
    ++ "\n) ENGINE=" ++ (spec.Engine.getD "InnoDB")
    ++ " DEFAULT CHARSET=" ++ (spec.Charset.getD "latin1")

/-- MySQL.py lines 780-935, `_createTables`: consistency checks, dependency
resolution, then per-table existence check and `CREATE TABLE`. Returns the
statements issued and the final schema. -/
def createTables (schema : List String) (tableDict : List (String × TableSpec))
    (force : Bool) : Except String (List String × List String) :=
  if tableDict.isEmpty then .ok ([], schema)
  else
    match tableDict.find? (fun e => e.2.Fields.isNone) with
    | some e => .error ("Missing `Fields` key in `" ++ e.1 ++ "` table dictionary")
    | none => do
      let rounds ← resolveRounds tableDict
      let step : (List String × List String) → String →
          Except String (List String × List String) := fun acc t => do
        let (chk, schema1) ← checkTable acc.2 t force
        let spec := (tableDict.lookup t).getD {}
        let cmd := createTableCmd t spec
        .ok (acc.1 ++ chk ++ [cmd], schema1 ++ [t])
      rounds.flatten.foldlM step ([], schema)

/-- A table is ready for extraction when every one of its foreign keys
points at an already-extracted table (or it has none). -/
def fkReady (tableDict : List (String × TableSpec)) (aux : List String) (t : String) : Bool :=
  (((tableDict.lookup t).getD {}).ForeignKeys).all
    (fun kv => aux.contains (fkTarget kv.1 kv.2).1)

/-- The three-table example of the specification: `A` without foreign keys,
`B` referencing `A`, `C` referencing `B`. -/
def specA : TableSpec := { Fields := some [("Id", "INT")] }

def specB : TableSpec :=
  { Fields := some [("Id", "INT"), ("AId", "INT")], ForeignKeys := [("AId", "A.Id")] }

def specC : TableSpec :=
  { Fields := some [("Id", "INT"), ("BId", "INT")], ForeignKeys := [("BId", "B.Id")] }

def exABC : List (String × TableSpec) := [("A", specA), ("B", specB), ("C", specC)]

/-- The cyclic example of the specification: `X` and `Y` referencing each
other. -/
def specX : TableSpec :=
  { Fields := some [("Id", "INT"), ("YId", "INT")], ForeignKeys := [("YId", "Y.Id")] }

def specY : TableSpec :=
  { Fields := some [("Id", "INT"), ("XId", "INT")], ForeignKeys := [("XId", "X.Id")] }

def exXY : List (String × TableSpec) := [("X", specX), ("Y", specY)]

/-- A concrete pool with ten spares (the configured maximum) and one
assigned connection, used by witnesses. -/
def fullPool : PoolState :=
  { spares := [(0, "d"), (1, "d"), (2, "d"), (3, "d"), (4, "d"),
               (5, "d"), (6, "d"), (7, "d"), (8, "d"), (9, "d")],
    maxSpares := 10, graceTime := 600,
    assigned := [(1, ⟨20, "db", 0⟩)], closed := [], nextConn := 21 }

/-
  ===================  Theorems  ===================
-/

theorem exceptBind_ok {ε α β : Type} (a : α) (f : α → Except ε β) :
    (Except.ok a : Except ε α) >>= f = f a := rfl

theorem exceptBind_err {ε α β : Type} (e : ε) (f : α → Except ε β) :
    (Except.error e : Except ε α) >>= f = .error e := rfl

theorem exceptPure {ε α : Type} (a : α) : (pure a : Except ε α) = .ok a := rfl


theorem quotedList_singleton (s : String) : quotedList [s] = some (quotedField s) := rfl

/-- Claim C2: the six high-level helpers build their condition with
`greater = None` and `smaller = None`, so the SQL text each of them
produces is independent of the caller-supplied `greater` and `smaller`
arguments: two calls differing only in those two arguments return
identical results. -/
theorem helpersIndependentOfGreaterSmaller (env : SqlEnv) (t attrA : String)
    (attrL : List String) (oF : Option (List String))
    (cD : Option (List (CondKey × PyVal))) (lim : LimitArg) (lim2 : Option Int)
    (uF : Option (List String)) (uV : Option (List PyVal))
    (uD : Option (List (String × PyVal)))
    (o n : Option PyVal) (ts : Option String) (oa : OrderArg)
    (g1 s1 g2 s2 : Option (List (String × PyVal))) :
    getFieldsOp env t oF cD lim o n ts oa g1 s1
      = getFieldsOp env t oF cD lim o n ts oa g2 s2
    ∧ deleteEntriesOp env t cD lim2 o n ts oa g1 s1
      = deleteEntriesOp env t cD lim2 o n ts oa g2 s2
    ∧ updateFieldsOp env t uF uV cD lim2 uD o n ts oa g1 s1
      = updateFieldsOp env t uF uV cD lim2 uD o n ts oa g2 s2
    ∧ countEntriesOp env t cD o n ts g1 s1
      = countEntriesOp env t cD o n ts g2 s2
    ∧ getCountersOp env t attrL cD o n ts g1 s1
      = getCountersOp env t attrL cD o n ts g2 s2
    ∧ getDistinctAttributeValuesOp env t attrA cD o n ts g1 s1
      = getDistinctAttributeValuesOp env t attrA cD o n ts g2 s2 :=
  ⟨rfl, rfl, rfl, rfl, rfl, rfl⟩

/-- Claim C7 (code bug): `_escapeValues` does not return one escaped output
per input value: a boolean value REPLACES the accumulated output list with
the singleton containing its literal text (MySQL.py line 557,
`inEscapeValues = [str(value)]`), so the two-element input
`["x", True]` produces the one-element output `["True"]` and the escaped
`"x"` is lost. -/
theorem escapeValuesBoolDropsAccumulator :
    escapeValues env0 [.str "x", .vbool true] = .ok ["True"]
    ∧ [PyVal.str "x", PyVal.vbool true].length = 2
    ∧ ["True"].length = 1 := ⟨rfl, rfl, rfl⟩

/-- Claim C9 (counterexample): `updateFields` called with an empty fields
list and a two-element values list (lengths 0 and 2) returns the early
success `S_OK(0)` of MySQL.py lines 1385-1386 and not a configuration
error. -/
theorem updateFieldsLengthMismatchNoop :
    updateFieldsOp env0 "t" (some []) (some [.vint 1, .vint 2]) none none none
        none none none (.one .noneE) none none = .ok .noop
    ∧ ([] : List String).length ≠ [PyVal.vint 1, PyVal.vint 2].length :=
  ⟨rfl, by decide⟩

/-- Claim C9 (amended): an arity mismatch between a provided fields list
and values list makes `insertFields` return the mismatch configuration
error with no SQL statement built, and makes `updateFields` do the same
except when the fields list is empty and no update dictionary is given, in
which case `updateFields` returns the early success `S_OK(0)`, still
executing no SQL. -/
theorem arityMismatchHandling (env : SqlEnv) (t : String) (f : List String)
    (v : List PyVal) (h : f.length ≠ v.length) :
    (∀ inDict, insertFieldsOp env t (some f) (some v) inDict
        = .error "Mismatch between inFields and inValues.")
    ∧ (∀ cD lim uD o n ts oa g s, f = [] → (uD.getD []).isEmpty →
        updateFieldsOp env t (some f) (some v) cD lim uD o n ts oa g s = .ok .noop)
    ∧ (∀ cD lim uD o n ts oa g s, ¬(f = [] ∧ ((uD : Option (List (String × PyVal))).getD []).isEmpty) →
        updateFieldsOp env t (some f) (some v) cD lim uD o n ts oa g s
          = .error "Mismatch between updateFields and updateValues.") := by
  have hck : checkFields (some f) (some v) = .error "Mismatch between inFields and inValues." := by
    simp [checkFields, h]
  refine ⟨fun inDict => ?_, fun cD lim uD o n ts oa g s hf hu => ?_, fun cD lim uD o n ts oa g s hne => ?_⟩
  · simp [insertFieldsOp, quotedList_singleton, hck]
  · simp [updateFieldsOp, hf, hu]
  · simp [updateFieldsOp, quotedList_singleton, hck]
    intro h1 h2
    exact hne ⟨h1, by simp [h2]⟩

/-- Witness for claim C9 (amended) at a concrete mismatched call. -/
theorem arityMismatchHandling_witness :
    ["a"].length ≠ [PyVal.vint 1, PyVal.vint 2].length
    ∧ insertFieldsOp env0 "t" (some ["a"]) (some [.vint 1, .vint 2]) none
        = .error "Mismatch between inFields and inValues." :=
  ⟨by decide,
   (arityMismatchHandling env0 "t" ["a"] [.vint 1, .vint 2] (by decide)).1 none⟩

/-- Claim C1 (code bug): the ping-failure branch of `__getWithRetry`
(MySQL.py lines 272-279) retries with `retriesLeft` unchanged instead of
decremented, so under an oracle whose liveness ping always fails the
acquisition never finishes: for every recursion allowance the result is
still `outOfFuel`, both for `__getWithRetry` started at the full budget
and for `get(dbName, retries = 10)`; the first conjunct shows one
ping-failure step leaving `retriesLeft` untouched. -/
theorem pingFailureRetriesUnbounded :
    (∀ oracle dbName (total : Int) fuel k (r : Int), 0 ≤ r → oracle k = .pingFail →
      (getWithRetry oracle dbName total (fuel + 1) k r).1
        = (getWithRetry oracle dbName total fuel (k + 1) r).1)
    ∧ (∀ fuel k, (getWithRetry (fun _ => .pingFail) "db" 10 fuel k 10).1 = .outOfFuel)
    ∧ (∀ fuel, (poolGet (fun _ => .pingFail) "db" 10 fuel).1 = .outOfFuel) := by
  have key : ∀ fuel k, (getWithRetry (fun _ => .pingFail) "db" 10 fuel k 10).1 = .outOfFuel := by
    intro fuel
    induction fuel with
    | zero => intro k; rfl
    | succ m ih =>
      intro k
      simpa [getWithRetry] using ih (k + 1)
  refine ⟨fun oracle dbName total fuel k r hr ho => ?_, key, fun fuel => ?_⟩
  · simp [getWithRetry, ho, hr]
  · simpa [poolGet, MAXCONNECTRETRY] using key fuel 0

/-- Witness for claim C1 at a concrete ping-failing step. -/
theorem pingFailureRetriesUnbounded_witness :
    (getWithRetry (fun _ => .pingFail) "db" 10 1 0 10).1
      = (getWithRetry (fun _ => .pingFail) "db" 10 0 1 10).1 :=
  pingFailureRetriesUnbounded.1 (fun _ => .pingFail) "db" 10 0 0 10 (by decide) rfl

theorem sleepAmount_eq (total r : Int) (hr : r ≤ total) :
    sleepAmount total r = 5 * (total - r) := by
  unfold sleepAmount
  rcases lt_or_ge 0 (5 * (total - r)) with hpos | hnp
  · simp [hpos]
  · have h0 : 5 * (total - r) = 0 := le_antisymm hnp (by omega)
    simp [h0]

theorem getWithRetry_trace_sleep (oracle : Nat → AttemptOutcome) (dbName : String)
    (total : Int) :
    ∀ fuel k (r : Int), r ≤ total →
      ∀ p ∈ (getWithRetry oracle dbName total fuel k r).2,
        p.1 ≤ r ∧ p.2 = 5 * (total - p.1) := by
  intro fuel
  induction fuel with
  | zero => intro k r _ p hp; simp [getWithRetry] at hp
  | succ m ih =>
    intro k r hrt p hp
    have hhead : p = (r, sleepAmount total r) →
        p.1 ≤ r ∧ p.2 = 5 * (total - p.1) := by
      intro he; subst he; simp [sleepAmount_eq total r hrt]
    have htail1 : p ∈ (getWithRetry oracle dbName total m (k + 1) (r - 1)).2 →
        p.1 ≤ r ∧ p.2 = 5 * (total - p.1) := by
      intro hmem
      have hih := ih (k + 1) (r - 1) (by omega) p hmem
      exact ⟨by omega, hih.2⟩
    have htail2 : p ∈ (getWithRetry oracle dbName total m (k + 1) r).2 →
        p.1 ≤ r ∧ p.2 = 5 * (total - p.1) := fun hmem => ih (k + 1) r hrt p hmem
    rw [getWithRetry] at hp
    rcases ho : oracle k with _ | _ | _ | _ | _ <;> rw [ho] at hp
    case connectFail =>
      by_cases hcond : (0 : Int) ≤ r <;> simp only [hcond, if_true, if_false,
        reduceIte, List.mem_cons, List.mem_singleton] at hp
      · rcases hp with hp | hp
        · exact hhead hp
        · exact htail1 hp
      · rcases hp with hp | hp
        · exact hhead hp
        · simp at hp
    case pingFail =>
      by_cases hcond : (0 : Int) ≤ r <;> simp only [hcond, if_true, if_false,
        reduceIte, List.mem_cons, List.mem_singleton] at hp
      · rcases hp with hp | hp
        · exact hhead hp
        · exact htail2 hp
      · rcases hp with hp | hp
        · exact hhead hp
        · simp at hp
    case selectDbFail =>
      by_cases hcond : (0 : Int) ≤ r <;> simp only [hcond, if_true, if_false,
        reduceIte, List.mem_cons, List.mem_singleton] at hp
      · rcases hp with hp | hp
        · exact hhead hp
        · exact htail1 hp
      · rcases hp with hp | hp
        · exact hhead hp
        · simp at hp
    case assignLost =>
      by_cases hcond : (0 : Int) ≤ r <;> simp only [hcond, if_true, if_false,
        reduceIte, List.mem_cons, List.mem_singleton] at hp
      · rcases hp with hp | hp
        · exact hhead hp
        · exact htail1 hp
      · rcases hp with hp | hp
        · exact hhead hp
        · simp at hp
    case success =>
      simp only [List.mem_singleton] at hp
      exact hhead hp

theorem getWithRetry_trace_head (oracle : Nat → AttemptOutcome) (dbName : String)
    (total : Int) (fuel k : Nat) (r : Int) (p : Int × Int)
    (hp : (getWithRetry oracle dbName total fuel k r).2.head? = some p) : p.1 = r := by
  cases fuel with
  | zero => simp [getWithRetry] at hp
  | succ m =>
    rw [getWithRetry] at hp
    rcases ho : oracle k with _ | _ | _ | _ | _ <;> rw [ho] at hp <;>
      [skip; skip; skip; skip;
       (simp only [List.head?] at hp; rw [← Option.some_inj.mp hp])] <;>
      by_cases hcond : (0 : Int) ≤ r <;>
      simp only [hcond, if_true, if_false, reduceIte, List.head?] at hp <;>
      rw [← Option.some_inj.mp hp]

/-- Claim C10: every attempt recorded by the acquisition retry loop sleeps
exactly `5 * (totalRetries - retriesLeft)` seconds for the `retriesLeft`
of that attempt (MySQL.py lines 262-264), later attempts never exceed the
initial budget, the first recorded attempt carries the initial budget, and
consequently the first attempt of `get` - which starts at
`retriesLeft = totalRetries` - sleeps 0 seconds. -/
theorem retrySleepLinearBackoff (oracle : Nat → AttemptOutcome) (dbName : String)
    (total : Int) (fuel k : Nat) (r : Int) (hr : r ≤ total) :
    (∀ p ∈ (getWithRetry oracle dbName total fuel k r).2,
        p.1 ≤ r ∧ p.2 = 5 * (total - p.1))
    ∧ (∀ p, (getWithRetry oracle dbName total fuel k r).2.head? = some p → p.1 = r)
    ∧ (∀ retries fuel2 p,
        (poolGet oracle dbName retries (fuel2 + 1)).2.head? = some p → p.2 = 0) := by
  refine ⟨getWithRetry_trace_sleep oracle dbName total fuel k r hr,
          fun p => getWithRetry_trace_head oracle dbName total fuel k r p,
          fun retries fuel2 p hp => ?_⟩
  rw [poolGet] at hp
  have h1 : p.1 = max 0 (min MAXCONNECTRETRY retries) :=
    getWithRetry_trace_head oracle dbName _ (fuel2 + 1) 0 _ p hp
  have hmem : p ∈ (getWithRetry oracle dbName (max 0 (min MAXCONNECTRETRY retries))
      (fuel2 + 1) 0 (max 0 (min MAXCONNECTRETRY retries))).2 :=
    List.mem_of_mem_head? hp
  have h2 := (getWithRetry_trace_sleep oracle dbName _ (fuel2 + 1) 0 _ le_rfl p hmem).2
  rw [h2, h1]
  ring

/-- Witness for claim C10: with a budget of 3 and an oracle failing the
first two connection attempts, the recorded sleeps obey the formula and
the first attempt sleeps 0 seconds. -/
theorem retrySleepLinearBackoff_witness :
    (3 : Int) ≤ 3
    ∧ ∀ p ∈ (getWithRetry (fun kk => if kk < 2 then .connectFail else .success)
        "db" 3 50 0 3).2, p.1 ≤ 3 ∧ p.2 = 5 * (3 - p.1) :=
  ⟨le_refl 3,
   (retrySleepLinearBackoff (fun kk => if kk < 2 then .connectFail else .success)
      "db" 3 50 0 3 (le_refl 3)).1⟩

theorem popConn_spareInv (p : PoolState) (thid : Nat) (h : spareInv p) :
    spareInv (popConn p thid) := by
  unfold popConn
  cases hlk : lookupAssigned p thid with
  | none => exact h
  | some d =>
    by_cases hlt : (removeAssigned p thid).spares.length < (removeAssigned p thid).maxSpares
    · have hstep : (removeAssigned p thid).spares.length + 1 ≤ (removeAssigned p thid).maxSpares := hlt
      simpa [spareInv, hlt] using hstep
    · simpa [spareInv, hlt] using h

theorem cleanStep_spareInv (alive : Nat → Bool) (now : Int) (p : PoolState) (thid : Nat)
    (h : spareInv p) : spareInv (cleanStep alive now p thid) := by
  unfold cleanStep
  have h1 : spareInv (if alive thid then p else popConn p thid) := by
    by_cases ha : alive thid
    · simpa [ha] using h
    · simpa [ha] using popConn_spareInv p thid h
  cases hlk : lookupAssigned (if alive thid then p else popConn p thid) thid with
  | none => simpa [hlk] using h1
  | some d =>
    by_cases hidle : now - d.lastUse > (if alive thid then p else popConn p thid).graceTime
    · simpa [hlk, hidle] using popConn_spareInv _ thid h1
    · simpa [hlk, hidle] using h1

theorem foldl_cleanStep_spareInv (alive : Nat → Bool) (now : Int) :
    ∀ (l : List Nat) (p : PoolState), spareInv p →
      spareInv (l.foldl (cleanStep alive now) p)
  | [], _, h => h
  | t :: rest, p, h =>
    foldl_cleanStep_spareInv alive now rest (cleanStep alive now p t)
      (cleanStep_spareInv alive now p t h)

/-- Claim C6: releasing an assigned connection through the pool's
`__pop` path appends it to the spare queue exactly when the queue length
is strictly below the configured maximum and closes it otherwise, and the
invariant that the spare queue never exceeds that maximum is preserved by
pool construction, by `__pop`, by `__innerGet`, by the ping-failure
assignment drop, and by `clean`. -/
theorem sparePoolBoundPreserved :
    (∀ p thid d, lookupAssigned p thid = some d →
      (p.spares.length < p.maxSpares →
        (popConn p thid).spares = p.spares ++ [(d.conn, d.db)]
        ∧ (popConn p thid).closed = p.closed)
      ∧ (¬ p.spares.length < p.maxSpares →
        (popConn p thid).spares = p.spares
        ∧ (popConn p thid).closed = p.closed ++ [d.conn]))
    ∧ (∀ p thid, spareInv p → spareInv (popConn p thid))
    ∧ (∀ p thid now, spareInv p → spareInv (innerGet p thid now).1)
    ∧ (∀ p thid, spareInv p → spareInv (dropAssigned p thid))
    ∧ (∀ alive now p, spareInv p → spareInv (cleanPool alive now p))
    ∧ (∀ g, spareInv (initPool g)) := by
  refine ⟨?_, popConn_spareInv, ?_, ?_, ?_, ?_⟩
  · intro p thid d hlk
    constructor
    · intro hlt
      constructor <;> simp [popConn, hlk, removeAssigned, hlt]
    · intro hge
      constructor <;> simp [popConn, hlk, removeAssigned, hge]
  · intro p thid now h
    unfold innerGet
    cases hlk : lookupAssigned p thid with
    | some d => simpa using h
    | none =>
      cases hlast : p.spares.getLast? with
      | some cd =>
        have hlen : p.spares.dropLast.length ≤ p.spares.length := by
          simp [List.length_dropLast]
        exact le_trans hlen h
      | none => simpa using h
  · intro p thid h
    simpa [dropAssigned, removeAssigned, spareInv] using h
  · intro alive now p h
    exact foldl_cleanStep_spareInv alive now _ p h
  · intro g
    simp [spareInv, initPool]

/-- Witness for claim C6 on a concrete pool with one assigned connection
and a full spare queue: the release closes the connection instead of
queueing it. -/
theorem sparePoolBoundPreserved_witness :
    lookupAssigned fullPool 1 = some ⟨20, "db", 0⟩
    ∧ ((popConn fullPool 1).spares = fullPool.spares
      ∧ (popConn fullPool 1).closed = fullPool.closed ++ [20]) :=
  ⟨rfl, (sparePoolBoundPreserved.1 fullPool 1 ⟨20, "db", 0⟩ rfl).2 (by decide)⟩

/-- Claim C8: the existence check of table creation fails with the
"already exists" error when the requested table is present in the live
schema and `force` is false; with `force` true it drops the table, and
`_createTables` then recreates it: the statement stream is the `DROP`
followed by the `CREATE` of the same table. -/
theorem checkTableExistencePolicy :
    (∀ schema name, name ∈ schema →
      checkTable schema name false = .error "The requested table already exist")
    ∧ (∀ schema name, name ∈ schema →
      checkTable schema name true =
        .ok (["SHOW TABLES", "DROP TABLE " ++ quotedField name], schema.erase name))
    ∧ (∀ schema name spec fields, name ∈ schema →
        spec.Fields = some fields → spec.ForeignKeys = [] →
      createTables schema [(name, spec)] true =
        .ok (["SHOW TABLES", "DROP TABLE " ++ quotedField name, createTableCmd name spec],
             schema.erase name ++ [name])) := by
  refine ⟨?_, ?_, ?_⟩
  · intro schema name hc
    simp [checkTable, quotedList_singleton, hc]
  · intro schema name hc
    simp [checkTable, quotedList_singleton, hc]
  · intro schema name spec fields hc hF hFK
    simp [createTables, resolveRounds, resolveRoundsAux, roundExtract, fkScan,
      checkTable, quotedList_singleton, hc, hF, hFK, List.lookup, List.find?,
      List.foldlM, exceptBind_ok, exceptBind_err, exceptPure]

/-- Witness for claim C8 at a concrete one-table schema. -/
theorem checkTableExistencePolicy_witness :
    "T" ∈ ["T"]
    ∧ checkTable ["T"] "T" false = .error "The requested table already exist" :=
  ⟨by decide, checkTableExistencePolicy.1 ["T"] "T" (by decide)⟩

theorem fkScan_extract_all (td : List (String × TableSpec)) (aux : List String)
    (tbl : String) (fields : List (String × String)) :
    ∀ fks, fkScan td aux tbl fields fks = .extract →
      fks.all (fun kv => aux.contains (fkTarget kv.1 kv.2).1) = true
  | [], _ => rfl
  | (key, auxT) :: rest, h => by
    unfold fkScan at h
    split_ifs at h with hc1 hc2 hc3
    have hc1t : aux.contains (fkTarget key auxT).1 = true := by
      revert hc1; cases aux.contains (fkTarget key auxT).1 <;> simp
    have hrest := fkScan_extract_all td aux tbl fields rest h
    simp only [List.all_cons, Bool.and_eq_true]
    exact ⟨hc1t, hrest⟩

theorem fkScan_defer_not_all (td : List (String × TableSpec)) (aux : List String)
    (tbl : String) (fields : List (String × String)) :
    ∀ fks, fkScan td aux tbl fields fks = .defer →
      fks.all (fun kv => aux.contains (fkTarget kv.1 kv.2).1) = false
  | [], h => by simp [fkScan] at h
  | (key, auxT) :: rest, h => by
    unfold fkScan at h
    split_ifs at h with hc1 hc2 hc3
    · have hc1f : aux.contains (fkTarget key auxT).1 = false := by
        revert hc1; cases aux.contains (fkTarget key auxT).1 <;> simp
      simp only [List.all_cons, hc1f, Bool.false_and]
    · have hrest := fkScan_defer_not_all td aux tbl fields rest h
      simp only [List.all_cons, hrest, Bool.and_false]

theorem roundExtract_filter (td : List (String × TableSpec)) (aux : List String) :
    ∀ l ext rem, roundExtract td aux l = .ok (ext, rem) →
      ext = l.filter (fkReady td aux) ∧ rem = l.filter (fun t => !(fkReady td aux t))
  | [], ext, rem, h => by
    simp only [roundExtract] at h
    cases h
    simp
  | t :: rest, ext, rem, h => by
    unfold roundExtract at h
    rcases hscan : fkScan td aux t ((((td.lookup t).getD {}).Fields).getD [])
        (((td.lookup t).getD {}).ForeignKeys) with _ | _ | m <;> rw [hscan] at h
    case extract =>
      cases hrest : roundExtract td aux rest with
      | error e => rw [hrest] at h; simp [exceptBind_err] at h
      | ok pr =>
        obtain ⟨e1, r1⟩ := pr
        rw [hrest] at h
        simp only [exceptBind_ok, exceptPure] at h
        have hready : fkReady td aux t = true := fkScan_extract_all td aux t _ _ hscan
        have hih := roundExtract_filter td aux rest e1 r1 hrest
        cases h
        simp [List.filter_cons, hready, hih.1, hih.2]
    case defer =>
      cases hrest : roundExtract td aux rest with
      | error e => rw [hrest] at h; simp [exceptBind_err] at h
      | ok pr =>
        obtain ⟨e1, r1⟩ := pr
        rw [hrest] at h
        simp only [exceptBind_ok, exceptPure] at h
        have hready : fkReady td aux t = false := fkScan_defer_not_all td aux t _ _ hscan
        have hih := roundExtract_filter td aux rest e1 r1 hrest
        cases h
        simp [List.filter_cons, hready, hih.1, hih.2]
    case fkError => simp [exceptBind_err] at h

/-- Claim C3: dependency resolution in `_createTables` proceeds by
iterative extraction: every successful round extracts exactly the
remaining tables all of whose foreign-key targets were already extracted,
in iteration order; the example `A <- B <- C` resolves to the creation
batches `[[A], [B], [C]]` and a full run creates the tables in the order
`A, B, C`; the mutually-referencing pair `X, Y` fails with a
dependency-cycle error naming exactly the remaining tables. -/
theorem createTablesDependencyResolution :
    (∀ td aux l ext rem, roundExtract td aux l = .ok (ext, rem) →
      ext = l.filter (fkReady td aux) ∧ rem = l.filter (fun t => !(fkReady td aux t)))
    ∧ resolveRounds exABC = .ok [["A"], ["B"], ["C"]]
    ∧ Except.map Prod.snd (createTables [] exABC false) = .ok ["A", "B", "C"]
    ∧ createTables [] exXY false = .error "Recursive Foreign Keys in X, Y" :=
  ⟨roundExtract_filter, rfl, rfl, rfl⟩

/-- Witness for claim C3: the first round over the example tables extracts
exactly `A` (the only table with no pending foreign-key targets). -/
theorem createTablesDependencyResolution_witness :
    roundExtract exABC [] ["A", "B", "C"] = .ok (["A"], ["B", "C"])
    ∧ ["A"] = ["A", "B", "C"].filter (fkReady exABC [])
    ∧ ["B", "C"] = ["A", "B", "C"].filter (fun t => !(fkReady exABC [] t)) :=
  ⟨rfl,
   (createTablesDependencyResolution.1 exABC [] ["A", "B", "C"] ["A"] ["B", "C"] rfl).1,
   (createTablesDependencyResolution.1 exABC [] ["A", "B", "C"] ["A"] ["B", "C"] rfl).2⟩

theorem exceptMap_ok {ε α β : Type} (f : α → β) (a : α) :
    Except.map f (Except.ok a : Except ε α) = .ok (f a) := rfl

theorem exceptMap_err {ε α β : Type} (f : α → β) (e : ε) :
    Except.map f (Except.error e : Except ε α) = .error e := rfl

theorem strData_append (a b : String) : (a ++ b).data = a.data ++ b.data := rfl

theorem strAppend_assoc (a b c : String) : a ++ b ++ c = a ++ (b ++ c) := by
  rcases a with ⟨la⟩; rcases b with ⟨lb⟩; rcases c with ⟨lc⟩
  show String.mk (la ++ lb ++ lc) = String.mk (la ++ (lb ++ lc))
  rw [List.append_assoc]

theorem joinPair_append (a b : List (String × Bool)) (st : String × String) :
    joinPair (a ++ b) st = joinPair b (joinPair a st) := by
  induction a generalizing st with
  | nil => rfl
  | cons hd tl ih =>
    obtain ⟨body, flip⟩ := hd
    simp only [List.cons_append, joinPair]
    exact ih _

theorem condLoop_spec (env : SqlEnv) :
    ∀ (l : List (CondKey × PyVal)) (c j : String),
      condLoop env l c j = Except.map (fun cl => joinPair cl (c, j)) (eqClauses env l)
  | [], c, j => rfl
  | (k, v) :: rest, c, j => by
    simp only [condLoop, eqClauses]
    cases hb : eqClauseBody env k v with
    | error e => simp [exceptBind_err, Except.map]
    | ok b =>
      simp only [exceptBind_ok]
      rw [condLoop_spec env rest]
      cases her : eqClauses env rest with
      | error e => simp [exceptBind_err, Except.map]
      | ok cl => simp [exceptBind_ok, Except.map, exceptPure, joinPair, strAppend_assoc]

theorem boundLoop_spec (env : SqlEnv) (op : String) :
    ∀ (l : List (String × PyVal)) (c j : String),
      boundLoop env op l c j = Except.map (fun cl => joinPair cl (c, j)) (boundClauses env op l)
  | [], c, j => rfl
  | (aName, v) :: rest, c, j => by
    simp only [boundLoop, boundClauses]
    cases hb : escapeValues env [v] with
    | error e => simp [exceptBind_err, Except.map]
    | ok ev =>
      simp only [exceptBind_ok]
      rw [boundLoop_spec env op rest]
      cases her : boundClauses env op rest with
      | error e => simp [exceptBind_err, Except.map]
      | ok cl => simp [exceptBind_ok, Except.map, exceptPure, joinPair, strAppend_assoc]

theorem tsSection_spec (env : SqlEnv) (ts : Option String) (nv ov : Option PyVal)
    (c j : String) :
    tsSection env ts nv ov c j
      = Except.map (fun cl => joinPair cl (c, j)) (tsClauses env ts nv ov false) := by
  cases ts with
  | none => rfl
  | some s =>
    by_cases hs : s.isEmpty
    · simp [tsSection, tsClauses, hs, Except.map, exceptPure, joinPair, strAppend_assoc, exceptBind_ok, exceptBind_err]
    · rcases nv with _ | n0
      · rcases ov with _ | o0
        · simp [tsSection, tsClauses, hs, Except.map, joinPair, exceptPure, strAppend_assoc, exceptBind_ok, exceptBind_err]
        · by_cases ho : o0.truthy
          · cases hev : escapeValues env [o0] with
            | error e =>
              simp [tsSection, tsClauses, hs, ho, hev, Except.map, exceptBind_err, exceptBind_ok, exceptPure, joinPair, strAppend_assoc]
            | ok l =>
              simp [tsSection, tsClauses, hs, ho, hev, Except.map, exceptBind_ok,
                exceptPure, joinPair, strAppend_assoc, exceptBind_err]
          · simp [tsSection, tsClauses, hs, ho, Except.map, joinPair, exceptPure, strAppend_assoc, exceptBind_ok, exceptBind_err]
      · by_cases hn : n0.truthy
        · cases hevn : escapeValues env [n0] with
          | error e =>
            rcases ov with _ | o0
            · simp [tsSection, tsClauses, hs, hn, hevn, Except.map, exceptBind_err, exceptBind_ok, exceptPure, joinPair, strAppend_assoc]
            · simp [tsSection, tsClauses, hs, hn, hevn, Except.map, exceptBind_err, exceptBind_ok, exceptPure, joinPair, strAppend_assoc]
          | ok ln =>
            rcases ov with _ | o0
            · simp [tsSection, tsClauses, hs, hn, hevn, Except.map, exceptBind_ok,
                exceptPure, joinPair, strAppend_assoc, exceptBind_err]
            · by_cases ho : o0.truthy
              · cases hevo : escapeValues env [o0] with
                | error e =>
                  simp [tsSection, tsClauses, hs, hn, hevn, ho, hevo, Except.map,
                    exceptBind_err, exceptBind_ok, exceptPure, joinPair, strAppend_assoc]
                | ok lo =>
                  simp [tsSection, tsClauses, hs, hn, hevn, ho, hevo, Except.map,
                    exceptBind_ok, exceptPure, joinPair, strAppend_assoc, exceptBind_err]
                  apply String.ext
                  simp [strData_append]
              · simp [tsSection, tsClauses, hs, hn, hevn, ho, Except.map,
                  exceptBind_ok, exceptPure, joinPair, strAppend_assoc, exceptBind_err]
        · rcases ov with _ | o0
          · simp [tsSection, tsClauses, hs, hn, Except.map, joinPair, exceptPure, strAppend_assoc, exceptBind_ok, exceptBind_err]
          · by_cases ho : o0.truthy
            · cases hevo : escapeValues env [o0] with
              | error e =>
                simp [tsSection, tsClauses, hs, hn, ho, hevo, Except.map,
                  exceptBind_err, exceptBind_ok, exceptPure, joinPair, strAppend_assoc]
              | ok lo =>
                simp [tsSection, tsClauses, hs, hn, ho, hevo, Except.map,
                  exceptBind_ok, exceptPure, joinPair, strAppend_assoc, exceptBind_err]
            · simp [tsSection, tsClauses, hs, hn, ho, Except.map, joinPair, exceptPure, strAppend_assoc, exceptBind_ok, exceptBind_err]

/-- Claim C4 (amended): `buildCondition` assembles its fragment exactly as
the clause-list assembly in the stated family order - equality clauses in
iteration order, then the timestamp `newer` (`>=`) and `older` (`<`)
bounds, then `greater` (`>=`), then `smaller` (`<`), joined starting at
`WHERE`, followed by `ORDER BY`, followed by `LIMIT` with `OFFSET` only
when both are given - with the one amendment that the `older` clause does
not advance the WHERE/AND conjunction (`olderFlips := false`); and an
absent condition dictionary with no other arguments yields the empty
fragment. -/
theorem buildConditionAssemblyOrder (env : SqlEnv) (cd : Option (List (CondKey × PyVal)))
    (o n : Option PyVal) (ts : Option String) (oa : OrderArg) (lim : Option Int)
    (g s : Option (List (String × PyVal))) (off : Option Int) :
    buildCondition env cd o n ts oa lim g s off
      = buildConditionSpec env cd o n ts oa lim g s off false
    ∧ buildCondition env none none none none (.one .noneE) none none none none = .ok "" := by
  refine ⟨?_, rfl⟩
  unfold buildCondition buildConditionSpec
  rw [condLoop_spec]
  cases heq : eqClauses env (cd.getD []) with
  | error e => simp [exceptMap_err, exceptBind_err]
  | ok cl =>
    simp only [exceptMap_ok, exceptBind_ok]
    rw [tsSection_spec]
    cases hts : tsClauses env ts n o false with
    | error e => simp [exceptMap_err, exceptBind_err]
    | ok tl =>
      simp only [exceptMap_ok, exceptBind_ok]
      rw [boundLoop_spec]
      cases hgc : boundClauses env ">=" (g.getD []) with
      | error e => simp [exceptMap_err, exceptBind_err]
      | ok gl =>
        simp only [exceptMap_ok, exceptBind_ok]
        rw [boundLoop_spec]
        cases hsc : boundClauses env "<" (s.getD []) with
        | error e => simp [exceptMap_err, exceptBind_err]
        | ok sl =>
          simp only [exceptMap_ok, exceptBind_ok]
          cases hol : orderLoop (orderEntries oa) with
          | error e => simp [exceptBind_err]
          | ok orderList =>
            simp only [exceptBind_ok, exceptPure]
            rw [joinPair_append, joinPair_append, joinPair_append]

/-- Claim C4 (counterexample): with an empty condition dictionary, an
`older` timestamp bound and a `greater` entry, the code emits a second
`WHERE` where the claim requires `AND`, because the older-bound branch of
`buildCondition` (MySQL.py lines 1194-1204) never switches the conjunction
to `AND`; the claim-shaped assembly (`olderFlips := true`) differs from
what `buildCondition` returns at this input. -/
theorem buildConditionClaimShapeCounterexample :
    buildCondition env0 none (some (.str "x")) none (some "ts") (.one .noneE) none
        (some [("a", .vint 1)]) none none
      = .ok "   WHERE `ts` < \"x\" WHERE `a` >= \"1\""
    ∧ buildConditionSpec env0 none (some (.str "x")) none (some "ts") (.one .noneE) none
        (some [("a", .vint 1)]) none none true
      = .ok "   WHERE `ts` < \"x\" AND `a` >= \"1\""
    ∧ ("   WHERE `ts` < \"x\" WHERE `a` >= \"1\"" : String)
        ≠ "   WHERE `ts` < \"x\" AND `a` >= \"1\"" :=
  ⟨rfl, rfl, by decide⟩

/-- Claim C5: whenever the condition builder fails (invalid identifier,
bad order attribute or direction, escaping failure), every public helper
that builds a condition returns an error value; in this embedding the
helpers are total functions into `Except`, so no fault other than the
returned error crosses the boundary. `updateFields` is exempted only when
it takes its early `S_OK(0)` return, in which case no condition is built
at all. -/
theorem conditionFailuresReturnTypedError (env : SqlEnv) :
    (∀ t oF cD lim o n ts oa g s e,
      buildCondition env (some (cD.getD [])) o n ts oa (limFst lim) none none (limSnd lim)
          = .error e →
      isErr (getFieldsOp env t oF cD lim o n ts oa g s) = true)
    ∧ (∀ t cD lim o n ts oa g s e,
      buildCondition env cD o n ts oa lim none none none = .error e →
      isErr (deleteEntriesOp env t cD lim o n ts oa g s) = true)
    ∧ (∀ t uF uV cD lim uD o n ts oa g s e,
      ¬((uF.getD []).isEmpty = true ∧ (uD.getD []).isEmpty = true) →
      buildCondition env cD o n ts oa lim none none none = .error e →
      isErr (updateFieldsOp env t uF uV cD lim uD o n ts oa g s) = true)
    ∧ (∀ t cD o n ts g s e,
      buildCondition env cD o n ts (.one .noneE) none none none none = .error e →
      isErr (countEntriesOp env t cD o n ts g s) = true)
    ∧ (∀ t aL cD o n ts g s e,
      buildCondition env cD o n ts (.one .noneE) none none none none = .error e →
      isErr (getCountersOp env t aL cD o n ts g s) = true)
    ∧ (∀ t aA cD o n ts g s e,
      buildCondition env cD o n ts (.one .noneE) none none none none = .error e →
      isErr (getDistinctAttributeValuesOp env t aA cD o n ts g s) = true) := by
  refine ⟨?_, ?_, ?_, ?_, ?_, ?_⟩
  · intro t oF cD lim o n ts oa g s e hbc
    cases oF with
    | none => simp [getFieldsOp, quotedList_singleton, hbc, isErr, exceptBind_ok, exceptBind_err, exceptPure]
    | some l =>
      by_cases hl : l.isEmpty
      · simp [getFieldsOp, quotedList_singleton, hbc, isErr, hl, exceptBind_ok, exceptBind_err, exceptPure]
      · simp [getFieldsOp, quotedList_singleton, hbc, isErr, hl, quotedList, exceptBind_ok, exceptBind_err, exceptPure]
  · intro t cD lim o n ts oa g s e hbc
    simp [deleteEntriesOp, quotedList_singleton, hbc, isErr, exceptBind_ok, exceptBind_err, exceptPure]
  · intro t uF uV cD lim uD o n ts oa g s e hne hbc
    have hb : (((uF.getD []).isEmpty) && ((uD.getD []).isEmpty)) = false := by
      cases h1 : (uF.getD []).isEmpty <;> cases h2 : (uD.getD []).isEmpty <;> simp_all
    cases hcf : checkFields uF uV with
    | error e2 => simp [updateFieldsOp, hb, hcf, quotedList_singleton, isErr, exceptBind_ok, exceptBind_err, exceptPure]
    | ok u =>
      cases hev : escapeValues env
          ((if uF = none then [] else uV.getD []) ++ (uD.getD []).map Prod.snd) with
      | error e3 =>
        simp [updateFieldsOp, hb, hcf, quotedList_singleton, hev, isErr,
          exceptBind_err, exceptBind_ok, exceptPure]
      | ok ev =>
        simp [updateFieldsOp, hb, hcf, quotedList_singleton, hev, hbc, isErr,
          exceptBind_err, exceptBind_ok, exceptPure]
  · intro t cD o n ts g s e hbc
    simp [countEntriesOp, quotedList_singleton, hbc, isErr, exceptBind_ok, exceptBind_err, exceptPure]
  · intro t aL cD o n ts g s e hbc
    by_cases hl : aL.isEmpty
    · simp [getCountersOp, quotedList_singleton, hbc, isErr, hl, quotedList, exceptBind_ok, exceptBind_err, exceptPure]
    · simp [getCountersOp, quotedList_singleton, hbc, isErr, hl, quotedList, exceptBind_ok, exceptBind_err, exceptPure]
  · intro t aA cD o n ts g s e hbc
    simp [getDistinctAttributeValuesOp, quotedList_singleton, hbc, isErr, exceptBind_ok, exceptBind_err, exceptPure]

/-- Witness for claim C5: an order attribute with an unsupported direction
suffix makes `buildCondition` fail and `getFields` return an error value. -/
theorem conditionFailuresReturnTypedError_witness :
    buildCondition env0 (some []) none none none (.one (.strE "f:BAD")) (limFst .noLim)
        none none (limSnd .noLim) = .error "Invalid orderAttribute argument"
    ∧ isErr (getFieldsOp env0 "t" none none .noLim none none none (.one (.strE "f:BAD"))
        none none) = true :=
  ⟨rfl, (conditionFailuresReturnTypedError env0).1 "t" none none .noLim none none none
      (.one (.strE "f:BAD")) none none "Invalid orderAttribute argument" rfl⟩

end DiracMySQL
